import Mathlib

/-
Shallow embedding of the management client in
src/sdk/script/management/account-manager.ts (the `AccountManager` class).

Every operation issues exactly one HTTP request through superagent and settles
a Q deferred from the request's `.end((err, res) => ...)` callback.  We embed
each operation's callback as a total Lean function from the callback's inputs
(the optional transport error `err` and the optional response `res`) to an
`Outcome`.  External libraries are parameters: `tryJSON` (the `try-json`
package, returning `undefined` on parse failure) is passed in as a function
`tj : String → JValue`, and `base64.decode` as `b64decode : String → String`.
JavaScript values reachable by the embedded code are modelled by `JValue`,
with `JValue.undefined` playing the role of `undefined`.
-/

namespace CodePush

/-- JavaScript values as seen by the client code: the possible results of
`tryJSON`, the values passed to `resolve`/`reject`, and `undefined`. -/
inductive JValue where
  | undefined
  | null
  | bool (b : Bool)
  | num (n : Int)
  | str (s : String)
  | arr (elems : List JValue)
  | obj (fields : List (String × JValue))
deriving Repr

/-- JavaScript truthiness of a `JValue` (NaN is not representable here). -/
def truthy : JValue → Bool
  | .undefined => false
  | .null => false
  | .bool b => b
  | .num n => n != 0
  | .str s => s != ""
  | .arr _ => true
  | .obj _ => true

/-- JavaScript property access `v[k]` on a parsed JSON value: `undefined` when
the property is missing or the value is not an object. -/
def getField : JValue → String → JValue
  | .obj fields, k =>
      match fields.find? (fun p => p.1 == k) with
      | some p => p.2
      | none => .undefined
  | _, _ => .undefined

/-- The transport error superagent may hand to an `.end` callback: its
`status` property (possibly `undefined`) and its `message`. -/
structure TransportError where
  status : Option Nat
  message : String

/-- The superagent response handed to an `.end` callback, restricted to the
properties the client reads: `ok` (the 2xx-class flag), `status`, `text`,
`header["location"]` (`none` when the header is absent) and the cookie data
that `agent.saveCookies(res)` would capture. -/
structure Response where
  ok : Bool
  status : Nat
  text : String
  location : Option String
  setCookies : List String

/-- The persistent cookie-bearing agent (`request.agent()` after
`saveCookies(res)`), reduced to the cookie data it holds. -/
structure AuthedAgent where
  cookies : List String

/-- `request.agent()` followed by `agent.saveCookies(res)`. -/
def agentFromResponse (r : Response) : AuthedAgent :=
  { cookies := r.setCookies }

/-- A fresh `request.agent()` on which `saveCookies` has not yet run. -/
def freshAgent : AuthedAgent :=
  { cookies := [] }

/-- How an `.end` callback run leaves the operation's deferred:
settled by `resolve`, settled by `reject`, left unsettled because the
callback returned without calling either (`hang`), or left unsettled because
the callback threw (dereferencing a property of `null`/`undefined`). -/
inductive Outcome where
  | resolve (v : JValue)
  | reject (e : JValue)
  | hang
  | crash
deriving Repr

/-- Whether an outcome is a rejection. -/
def Outcome.isReject : Outcome → Bool
  | .reject _ => true
  | _ => false

/-- The error object `{message: m}`. -/
def messageOnly (m : String) : JValue :=
  .obj [("message", .str m)]

/-- The error object `{message: m, statusCode: code}`. -/
def errorResponse (m : String) (code : Nat) : JValue :=
  .obj [("message", .str m), ("statusCode", .num code)]

/-- `AccountManager.getErrorMessage` (source lines 871-873):
`response && response.text ? response.text : error.message`. -/
def getErrorMessage (error : TransportError) (response : Option Response) : String :=
  match response with
  | some r => if r.text != "" then r.text else error.message
  | none => error.message

/-- The non-success branch repeated verbatim in every operation (e.g. source
lines 177-184): `var body = tryJSON(res.text); if (body) reject(body); else
reject({message: res.text, statusCode: res.status});`. -/
def failureOutcome (body : JValue) (r : Response) : Outcome :=
  if truthy body then .reject body
  else .reject (errorResponse r.text r.status)

/-- The prologue shared by the `.end` callbacks: `if (err) {
reject({message: this.getErrorMessage(err, res)}); return; }`, then the
operation-specific handling of the response.  When both `err` and `res` are
absent the JavaScript code dereferences a property of `undefined` and throws. -/
def endCallback (onResponse : Response → Outcome)
    (err : Option TransportError) (res : Option Response) : Outcome :=
  match err with
  | some e => .reject (messageOnly (getErrorMessage e res))
  | none =>
    match res with
    | none => .crash
    | some r => onResponse r

/-- Response handling shared by the void-returning operations
(e.g. `removeAccessKey`, source lines 258-274): `if (res.ok) resolve(null);
else` the repeated failure branch. -/
def voidOpOnResponse (tj : String → JValue) (r : Response) : Outcome :=
  if r.ok then .resolve .null
  else failureOutcome (tj r.text) r

/-- Response handling shared by the body-parsing get/list operations
(e.g. `getApps`, source lines 349-369), parametrised by the body field that
is resolved: `var body = tryJSON(res.text); if (res.ok) { if (body)
resolve(body.<field>); else reject({message: "Could not parse response: " +
res.text, statusCode: res.status}); } else` the repeated failure branch. -/
def getOpOnResponse (field : String) (tj : String → JValue) (r : Response) : Outcome :=
  let body := tj r.text
  if r.ok then
    if truthy body then .resolve (getField body field)
    else .reject (errorResponse ("Could not parse response: " ++ r.text) r.status)
  else failureOutcome body r

/-- Index of the last occurrence of a character in a character list,
embedding JavaScript's `String.prototype.lastIndexOf` (with `none` for -1). -/
def lastIndexOfChar : List Char → Char → Option Nat
  | [], _ => none
  | c :: cs, t =>
    match lastIndexOfChar cs t with
    | some i => some (i + 1)
    | none => if c == t then some 0 else none

/-- JavaScript's `s.substr(i)`: the suffix of `s` starting at index `i`. -/
def substrFrom (s : String) (i : Nat) : String :=
  String.mk (s.data.drop i)

/-- Response handling shared by the Location-header create operations
(`addAccessKey` lines 163-185, `addApp` lines 414-436, `addDeployment`
lines 507-529), parametrised by the record the operation resolves once its
`id` is filled in: `if (res.ok) { var location = res.header["location"];
if (location && location.lastIndexOf("/") !== -1) { <resource>.id =
location.substr(location.lastIndexOf("/") + 1); resolve(<resource>); } else
resolve(null); } else` the repeated failure branch. -/
def createOpOnResponse (mkResource : String → JValue) (tj : String → JValue)
    (r : Response) : Outcome :=
  if r.ok then
    match r.location with
    | none => .resolve .null
    | some loc =>
      if loc != "" then
        match lastIndexOfChar loc.data '/' with
        | some i => .resolve (mkResource (substrFrom loc (i + 1)))
        | none => .resolve .null
      else .resolve .null
  else failureOutcome (tj r.text) r

namespace AccountManager

/-- `.end` callback of `addAccessKey` (source lines 153-187); `generatedName`
stands for the `uuid.v4()` value and `description` for the optional
description argument (`JValue.undefined` when omitted).  The resolved record is
the `accessKey` object `{id, name, description}` with `id` mutated to the
trailing segment of the Location header. -/
def addAccessKey (generatedName : String) (description : JValue)
    (tj : String → JValue) : Option TransportError → Option Response → Outcome :=
  endCallback (createOpOnResponse
    (fun id => .obj [("id", .str id), ("name", .str generatedName),
                     ("description", description)]) tj)

/-- `.end` callback of `getAccessKey` (source lines 196-216). -/
def getAccessKey (tj : String → JValue) :
    Option TransportError → Option Response → Outcome :=
  endCallback (getOpOnResponse "accessKey" tj)

/-- `.end` callback of `getAccessKeys` (source lines 227-247). -/
def getAccessKeys (tj : String → JValue) :
    Option TransportError → Option Response → Outcome :=
  endCallback (getOpOnResponse "accessKeys" tj)

/-- `.end` callback of `removeAccessKey` (source lines 258-274). -/
def removeAccessKey (tj : String → JValue) :
    Option TransportError → Option Response → Outcome :=
  endCallback (voidOpOnResponse tj)

/-- `.end` callback of `getAccountInfo` (source lines 286-308); the
assignment to `this.account` is not modelled, only the settled outcome
`resolve(body.account)`. -/
def getAccountInfo (tj : String → JValue) :
    Option TransportError → Option Response → Outcome :=
  endCallback (getOpOnResponse "account" tj)

/-- `.end` callback of `updateAccountInfo` (source lines 321-337). -/
def updateAccountInfo (tj : String → JValue) :
    Option TransportError → Option Response → Outcome :=
  endCallback (voidOpOnResponse tj)

/-- `.end` callback of `getApps` (source lines 349-369). -/
def getApps (tj : String → JValue) :
    Option TransportError → Option Response → Outcome :=
  endCallback (getOpOnResponse "apps" tj)

/-- `.end` callback of `getApp` (source lines 380-400). -/
def getApp (tj : String → JValue) :
    Option TransportError → Option Response → Outcome :=
  endCallback (getOpOnResponse "app" tj)

/-- `.end` callback of `addApp` (source lines 404-438); the resolved record
is the `app` object `{name, description}` with `id` set from the Location
header's trailing segment. -/
def addApp (appName : String) (description : JValue)
    (tj : String → JValue) : Option TransportError → Option Response → Outcome :=
  endCallback (createOpOnResponse
    (fun id => .obj [("name", .str appName), ("description", description),
                     ("id", .str id)]) tj)

/-- `.end` callback of `removeApp` (source lines 448-464). -/
def removeApp (tj : String → JValue) :
    Option TransportError → Option Response → Outcome :=
  endCallback (voidOpOnResponse tj)

/-- `.end` callback of `updateApp` (source lines 476-492). -/
def updateApp (tj : String → JValue) :
    Option TransportError → Option Response → Outcome :=
  endCallback (voidOpOnResponse tj)

/-- `.end` callback of `addDeployment` (source lines 497-531); the resolved
record is the `deployment` object `{name, description}` with `id` set from
the Location header's trailing segment. -/
def addDeployment (name : String) (description : JValue)
    (tj : String → JValue) : Option TransportError → Option Response → Outcome :=
  endCallback (createOpOnResponse
    (fun id => .obj [("name", .str name), ("description", description),
                     ("id", .str id)]) tj)

/-- `.end` callback of `getDeployments` (source lines 539-559). -/
def getDeployments (tj : String → JValue) :
    Option TransportError → Option Response → Outcome :=
  endCallback (getOpOnResponse "deployments" tj)

/-- `.end` callback of `getDeployment` (source lines 569-589). -/
def getDeployment (tj : String → JValue) :
    Option TransportError → Option Response → Outcome :=
  endCallback (getOpOnResponse "deployment" tj)

/-- `.end` callback of `updateDeployment` (source lines 601-617). -/
def updateDeployment (tj : String → JValue) :
    Option TransportError → Option Response → Outcome :=
  endCallback (voidOpOnResponse tj)

/-- `.end` callback of `removeDeployment` (source lines 628-644). -/
def removeDeployment (tj : String → JValue) :
    Option TransportError → Option Response → Outcome :=
  endCallback (voidOpOnResponse tj)

/-- Response handling of `addDeploymentKey` (source lines 664-679).  The
source nests a second `if (res.ok)` inside the first and gives the *inner*
test the else branch that every other operation attaches to the outer one;
the outer `if (res.ok)` therefore has no else branch, so a non-success
response with no transport error settles nothing.  The structure is kept
verbatim, including the dead inner else branch. -/
def addDeploymentKeyOnResponse (tj : String → JValue) (r : Response) : Outcome :=
  if r.ok then
    let body := tj r.text
    if r.ok then
      if truthy body then .resolve (getField body "deploymentKey")
      else .reject (errorResponse ("Could not parse response: " ++ r.text) r.status)
    else failureOutcome body r
  else .hang

/-- `.end` callback of `addDeploymentKey` (source lines 649-682). -/
def addDeploymentKey (tj : String → JValue) :
    Option TransportError → Option Response → Outcome :=
  endCallback (addDeploymentKeyOnResponse tj)

/-- `.end` callback of `getDeploymentKeys` (source lines 690-710). -/
def getDeploymentKeys (tj : String → JValue) :
    Option TransportError → Option Response → Outcome :=
  endCallback (getOpOnResponse "deploymentKeys" tj)

/-- `.end` callback of `getDeploymentKey` (source lines 720-740). -/
def getDeploymentKey (tj : String → JValue) :
    Option TransportError → Option Response → Outcome :=
  endCallback (getOpOnResponse "deploymentKey" tj)

/-- `.end` callback of `updateDeploymentKey` (source lines 752-768). -/
def updateDeploymentKey (tj : String → JValue) :
    Option TransportError → Option Response → Outcome :=
  endCallback (voidOpOnResponse tj)

/-- `.end` callback of `deleteDeploymentKey` (source lines 779-795). -/
def deleteDeploymentKey (tj : String → JValue) :
    Option TransportError → Option Response → Outcome :=
  endCallback (voidOpOnResponse tj)

/-- `.end` callback of `addPackage` (source lines 815-831). -/
def addPackage (tj : String → JValue) :
    Option TransportError → Option Response → Outcome :=
  endCallback (voidOpOnResponse tj)

/-- `.end` callback of `getPackage` (source lines 841-861). -/
def getPackage (tj : String → JValue) :
    Option TransportError → Option Response → Outcome :=
  endCallback (getOpOnResponse "package" tj)

/-- `AccountManager.getLoginInfo` (source lines 865-869):
`tryJSON(base64.decode(accessKey))`. -/
def getLoginInfo (tj : String → JValue) (b64decode : String → String)
    (accessKey : String) : JValue :=
  tj (b64decode accessKey)

/-- The synchronous fate of a `loginWithAccessToken` call: either the deferred
is rejected before any HTTP request is issued, or the request to
`/auth/login/accessToken` is issued carrying the listed identity fields. -/
inductive LoginAttempt where
  | noRequest (rejected : JValue)
  | request (providerName providerUniqueId accessKeyName : JValue)

/-- Synchronous part of `loginWithAccessToken` (source lines 59-74): decode
the token, reject `{message: "Invalid access key."}` without issuing a
request when the decoded info or either provider identity field is falsy,
otherwise issue the login request. -/
def loginWithAccessToken (tj : String → JValue) (b64decode : String → String)
    (accessToken : String) : LoginAttempt :=
  let loginInfo := getLoginInfo tj b64decode accessToken
  if !truthy loginInfo || !truthy (getField loginInfo "providerName")
      || !truthy (getField loginInfo "providerUniqueId") then
    .noRequest (messageOnly "Invalid access key.")
  else
    .request (getField loginInfo "providerName")
      (getField loginInfo "providerUniqueId") (getField loginInfo "accessKeyName")

/-- `.end` callback of `loginWithAccessToken` (source lines 75-96), with the
`_saveAuthedAgent` flag and the current `_authedAgent` passed in explicitly;
returns the outcome together with the new `_authedAgent`.  On a transport
error the agent is untouched; otherwise, when `_saveAuthedAgent` is set, the
agent is overwritten with a fresh agent holding the response's cookies before
`res.ok` is examined.  With `res` absent and no error, the fresh agent is
assigned before `saveCookies(res)` throws. -/
def loginWithAccessTokenEnd (tj : String → JValue) (saveAuthedAgent : Bool)
    (authedAgent : Option AuthedAgent) (err : Option TransportError)
    (res : Option Response) : Outcome × Option AuthedAgent :=
  match err with
  | some e => (.reject (messageOnly (getErrorMessage e res)), authedAgent)
  | none =>
    match res with
    | none =>
      if saveAuthedAgent then (.crash, some freshAgent) else (.crash, authedAgent)
    | some r =>
      let newAgent := if saveAuthedAgent then some (agentFromResponse r) else authedAgent
      if r.ok then (.resolve .null, newAgent)
      else (failureOutcome (tj r.text) r, newAgent)

/-- The part of the `logout` callback (source lines 111-122) reached when the
transport-error guard does not fire: `this._authedAgent = null;` followed by
the usual resolve/reject on `res.ok`; `res.ok` on an absent response throws. -/
def logoutProceed (tj : String → JValue) (res : Option Response) :
    Outcome × Option AuthedAgent :=
  match res with
  | none => (.crash, none)
  | some r =>
    if r.ok then (.resolve .null, none)
    else (failureOutcome (tj r.text) r, none)

/-- `.end` callback of `logout` (source lines 105-123): reject and leave the
agent untouched on a transport error whose status is not 401 (`if (err &&
err.status !== 401)`); in every other case clear `_authedAgent` first and
then settle from the response. -/
def logoutEnd (tj : String → JValue) (authedAgent : Option AuthedAgent)
    (err : Option TransportError) (res : Option Response) :
    Outcome × Option AuthedAgent :=
  match err with
  | some e =>
    if e.status != some 401 then
      (.reject (messageOnly (getErrorMessage e res)), authedAgent)
    else logoutProceed tj res
  | none => logoutProceed tj res

/-- `var status = res ? res.status : err.status;` (source line 139): `none`
in the outer option means the JavaScript code threw (reading `err.status`
with both `res` and `err` absent); the inner option is the possibly
`undefined` status value. -/
def observedStatus (err : Option TransportError) (res : Option Response) :
    Option (Option Nat) :=
  match res with
  | some r => some (some r.status)
  | none =>
    match err with
    | some e => some e.status
    | none => none

/-- The part of the `isAuthenticated` callback (source lines 139-148) reached
when the transport-error guard does not fire: compute the observed status,
resolve `status === 200`, and when authenticated with `_saveAuthedAgent` set
overwrite the agent with a fresh cookie-bearing one (with `res` absent the
fresh agent is assigned before `saveCookies(res)` throws). -/
def isAuthenticatedProceed (saveAuthedAgent : Bool)
    (authedAgent : Option AuthedAgent) (err : Option TransportError)
    (res : Option Response) : Outcome × Option AuthedAgent :=
  match observedStatus err res with
  | none => (.crash, authedAgent)
  | some st =>
    let authenticated := st == some 200
    if authenticated && saveAuthedAgent then
      match res with
      | some r => (.resolve (.bool authenticated), some (agentFromResponse r))
      | none => (.crash, some freshAgent)
    else (.resolve (.bool authenticated), authedAgent)

/-- `.end` callback of `isAuthenticated` (source lines 133-149): reject on a
transport error whose status is not 401; otherwise resolve the boolean
`status === 200`. -/
def isAuthenticatedEnd (saveAuthedAgent : Bool)
    (authedAgent : Option AuthedAgent) (err : Option TransportError)
    (res : Option Response) : Outcome × Option AuthedAgent :=
  match err with
  | some e =>
    if e.status != some 401 then
      (.reject (messageOnly (getErrorMessage e res)), authedAgent)
    else isAuthenticatedProceed saveAuthedAgent authedAgent err res
  | none => isAuthenticatedProceed saveAuthedAgent authedAgent err res

end AccountManager

/-- The listing data the command executor resolves names against: each list
holds `(id, name)` pairs as returned by `getAccessKeys`, `getApps` and
`getDeployments` (the latter per app id). -/
structure SdkData where
  accessKeys : List (String × String)
  apps : List (String × String)
  deployments : String → List (String × String)

/-- The destructive CLI commands gated by interactive confirmation
(exercised by the tests at source lines 1030-1272). -/
inductive RemoveCommand where
  | accessKeyRemove (accessKeyName : String)
  | appRemove (appName : String)
  | deploymentRemove (appName : String) (deploymentName : String)

/-- An invocation of one of the management client's remove/delete methods. -/
inductive SdkRemoveCall where
  | removeAccessKey (accessKeyId : String)
  | removeApp (appId : String)
  | removeDeployment (appId : String) (deploymentId : String)
deriving DecidableEq, Repr

/-- Client-side name resolution: the first list entry whose name matches
exactly, as specified in section 4.2 of the spec. -/
def findIdByName (items : List (String × String)) (name : String) : Option String :=
  (items.find? (fun p => p.2 == name)).map (fun p => p.1)

/-- Whether a remove command's human-friendly names all resolve to ids. -/
def resolvesTarget (data : SdkData) : RemoveCommand → Bool
  | .accessKeyRemove name => (findIdByName data.accessKeys name).isSome
  | .appRemove name => (findIdByName data.apps name).isSome
  | .deploymentRemove appName deploymentName =>
    match findIdByName data.apps appName with
    | none => false
    | some appId => (findIdByName (data.deployments appId) deploymentName).isSome

/-- Modelled from the spec: the command executor
(`src/script/command-executor.ts`, not included under src/; only its tests at
source lines 990-1293 are).  Per spec section 4.2 it resolves human names to
ids via a list call filtered by exact name match, raising a not-found
condition when no match exists, and requests interactive confirmation before
a destructive command; declining is a no-op that logs the cancellation
message, which the tests pin to `"Remove cancelled."` and the success logs to
the quoted messages below.  Returns the remove/delete SDK methods invoked
together with the logged messages. -/
def executeRemove (data : SdkData) (confirmed : Bool) :
    RemoveCommand → List SdkRemoveCall × List String
  | .accessKeyRemove name =>
    match findIdByName data.accessKeys name with
    | none => ([], ["Access key \"" ++ name ++ "\" does not exist."])
    | some id =>
      if confirmed then
        ([.removeAccessKey id], ["Removed access key \"" ++ name ++ "\"."])
      else ([], ["Remove cancelled."])
  | .appRemove name =>
    match findIdByName data.apps name with
    | none => ([], ["App \"" ++ name ++ "\" does not exist."])
    | some id =>
      if confirmed then
        ([.removeApp id], ["Removed app \"" ++ name ++ "\"."])
      else ([], ["Remove cancelled."])
  | .deploymentRemove appName deploymentName =>
    match findIdByName data.apps appName with
    | none => ([], ["App \"" ++ appName ++ "\" does not exist."])
    | some appId =>
      match findIdByName (data.deployments appId) deploymentName with
      | none => ([], ["Deployment \"" ++ deploymentName ++ "\" does not exist."])
      | some deploymentId =>
        if confirmed then
          ([.removeDeployment appId deploymentId],
           ["Removed deployment \"" ++ deploymentName ++ "\" from app \""
             ++ appName ++ "\"."])
        else ([], ["Remove cancelled."])

/-- The repeated failure branch always rejects. -/
theorem failureOutcome_isReject (body : JValue) (r : Response) :
    (failureOutcome body r).isReject = true := by
  unfold failureOutcome
  split <;> rfl

/-- Whatever the response, `logoutProceed` leaves `_authedAgent` cleared. -/
theorem logoutProceed_snd (tj : String → JValue) (res : Option Response) :
    (AccountManager.logoutProceed tj res).2 = none := by
  cases res with
  | none => rfl
  | some r =>
    by_cases hok : r.ok = true <;> simp [AccountManager.logoutProceed, hok]

/-- C4: every get/list operation, on a response whose status flag is success
but whose body text does not parse as JSON, rejects with the message
"Could not parse response: " concatenated with the raw response text and with
the response status as statusCode. -/
theorem getOps_reject_unparseable_success_body (tj : String → JValue)
    (r : Response) (hok : r.ok = true) (hbody : tj r.text = JValue.undefined) :
    AccountManager.getAccessKey tj none (some r) =
      Outcome.reject (errorResponse ("Could not parse response: " ++ r.text) r.status) ∧
    AccountManager.getAccessKeys tj none (some r) =
      Outcome.reject (errorResponse ("Could not parse response: " ++ r.text) r.status) ∧
    AccountManager.getAccountInfo tj none (some r) =
      Outcome.reject (errorResponse ("Could not parse response: " ++ r.text) r.status) ∧
    AccountManager.getApps tj none (some r) =
      Outcome.reject (errorResponse ("Could not parse response: " ++ r.text) r.status) ∧
    AccountManager.getApp tj none (some r) =
      Outcome.reject (errorResponse ("Could not parse response: " ++ r.text) r.status) ∧
    AccountManager.getDeployments tj none (some r) =
      Outcome.reject (errorResponse ("Could not parse response: " ++ r.text) r.status) ∧
    AccountManager.getDeployment tj none (some r) =
      Outcome.reject (errorResponse ("Could not parse response: " ++ r.text) r.status) ∧
    AccountManager.getDeploymentKeys tj none (some r) =
      Outcome.reject (errorResponse ("Could not parse response: " ++ r.text) r.status) ∧
    AccountManager.getDeploymentKey tj none (some r) =
      Outcome.reject (errorResponse ("Could not parse response: " ++ r.text) r.status) ∧
    AccountManager.getPackage tj none (some r) =
      Outcome.reject (errorResponse ("Could not parse response: " ++ r.text) r.status) := by
  simp [AccountManager.getAccessKey, AccountManager.getAccessKeys,
    AccountManager.getAccountInfo, AccountManager.getApps, AccountManager.getApp,
    AccountManager.getDeployments, AccountManager.getDeployment,
    AccountManager.getDeploymentKeys, AccountManager.getDeploymentKey,
    AccountManager.getPackage, endCallback, getOpOnResponse, hok, hbody, truthy]

/-- Witness for C4: `getApps` on a 200 response with the unparseable body
"bad" rejects with the pinned parse-error message. -/
theorem getOps_reject_unparseable_success_body_witness :
    AccountManager.getApps (fun _ => JValue.undefined) none
      (some { ok := true, status := 200, text := "bad", location := none,
              setCookies := [] }) =
      Outcome.reject (errorResponse "Could not parse response: bad" 200) := by
  simpa using
    (getOps_reject_unparseable_success_body (fun _ => JValue.undefined)
      { ok := true, status := 200, text := "bad", location := none,
        setCookies := [] } rfl rfl).2.2.2.1

/-- C5: when the access token's base64-decoded content does not parse as
JSON, or parses to a record missing the providerName or providerUniqueId
field, loginWithAccessToken rejects with the message "Invalid access key."
before any HTTP request is issued. -/
theorem loginWithAccessToken_invalid_token_rejects_without_request
    (tj : String → JValue) (b64decode : String → String) (accessToken : String)
    (h : tj (b64decode accessToken) = JValue.undefined
       ∨ getField (tj (b64decode accessToken)) "providerName" = JValue.undefined
       ∨ getField (tj (b64decode accessToken)) "providerUniqueId" = JValue.undefined) :
    AccountManager.loginWithAccessToken tj b64decode accessToken =
      AccountManager.LoginAttempt.noRequest (messageOnly "Invalid access key.") := by
  unfold AccountManager.loginWithAccessToken AccountManager.getLoginInfo
  rcases h with h | h | h <;> simp [h, truthy]

/-- Witness for C5: a token decoding to unparseable content is rejected with
no request issued. -/
theorem loginWithAccessToken_invalid_token_witness :
    AccountManager.loginWithAccessToken (fun _ => JValue.undefined) (fun s => s)
      "garbage" =
      AccountManager.LoginAttempt.noRequest (messageOnly "Invalid access key.") :=
  loginWithAccessToken_invalid_token_rejects_without_request
    (fun _ => JValue.undefined) (fun s => s) "garbage" (Or.inl rfl)

/-- C6: each listing operation, on any success-status response of its own
whose body parses to an object whose corresponding field carries a sequence,
resolves exactly that sequence, in order and with elements unmodified.  The
four operations take four independent responses, each constrained only by
its own field hypothesis. -/
theorem listOps_resolve_body_sequences (tj : String → JValue)
    (rK rA rD rDK : Response)
    (fsK fsA fsD fsDK : List (String × JValue))
    (keyList appList depList dkList : List JValue)
    (hok1 : rK.ok = true) (hbody1 : tj rK.text = JValue.obj fsK)
    (h1 : getField (JValue.obj fsK) "accessKeys" = JValue.arr keyList)
    (hok2 : rA.ok = true) (hbody2 : tj rA.text = JValue.obj fsA)
    (h2 : getField (JValue.obj fsA) "apps" = JValue.arr appList)
    (hok3 : rD.ok = true) (hbody3 : tj rD.text = JValue.obj fsD)
    (h3 : getField (JValue.obj fsD) "deployments" = JValue.arr depList)
    (hok4 : rDK.ok = true) (hbody4 : tj rDK.text = JValue.obj fsDK)
    (h4 : getField (JValue.obj fsDK) "deploymentKeys" = JValue.arr dkList) :
    AccountManager.getAccessKeys tj none (some rK) = Outcome.resolve (JValue.arr keyList) ∧
    AccountManager.getApps tj none (some rA) = Outcome.resolve (JValue.arr appList) ∧
    AccountManager.getDeployments tj none (some rD) = Outcome.resolve (JValue.arr depList) ∧
    AccountManager.getDeploymentKeys tj none (some rDK) = Outcome.resolve (JValue.arr dkList) := by
  refine ⟨?_, ?_, ?_, ?_⟩
  · simp [AccountManager.getAccessKeys, endCallback, getOpOnResponse,
      hok1, hbody1, truthy, h1]
  · simp [AccountManager.getApps, endCallback, getOpOnResponse,
      hok2, hbody2, truthy, h2]
  · simp [AccountManager.getDeployments, endCallback, getOpOnResponse,
      hok3, hbody3, truthy, h3]
  · simp [AccountManager.getDeploymentKeys, endCallback, getOpOnResponse,
      hok4, hbody4, truthy, h4]

/-- Witness for C6: four concrete responses, each of whose bodies carries
only the field its own operation reads, are resolved to their sequences. -/
theorem listOps_resolve_body_sequences_witness :
    AccountManager.getAccessKeys
      (fun t =>
        if t = "kb" then JValue.obj [("accessKeys", JValue.arr [JValue.str "k"])]
        else if t = "ab" then
          JValue.obj [("apps", JValue.arr [JValue.str "a1", JValue.str "a2"])]
        else if t = "db" then JValue.obj [("deployments", JValue.arr [])]
        else if t = "dkb" then
          JValue.obj [("deploymentKeys", JValue.arr [JValue.num 5])]
        else JValue.undefined) none
      (some { ok := true, status := 200, text := "kb", location := none,
              setCookies := [] }) =
      Outcome.resolve (JValue.arr [JValue.str "k"]) ∧
    AccountManager.getApps
      (fun t =>
        if t = "kb" then JValue.obj [("accessKeys", JValue.arr [JValue.str "k"])]
        else if t = "ab" then
          JValue.obj [("apps", JValue.arr [JValue.str "a1", JValue.str "a2"])]
        else if t = "db" then JValue.obj [("deployments", JValue.arr [])]
        else if t = "dkb" then
          JValue.obj [("deploymentKeys", JValue.arr [JValue.num 5])]
        else JValue.undefined) none
      (some { ok := true, status := 200, text := "ab", location := none,
              setCookies := [] }) =
      Outcome.resolve (JValue.arr [JValue.str "a1", JValue.str "a2"]) ∧
    AccountManager.getDeployments
      (fun t =>
        if t = "kb" then JValue.obj [("accessKeys", JValue.arr [JValue.str "k"])]
        else if t = "ab" then
          JValue.obj [("apps", JValue.arr [JValue.str "a1", JValue.str "a2"])]
        else if t = "db" then JValue.obj [("deployments", JValue.arr [])]
        else if t = "dkb" then
          JValue.obj [("deploymentKeys", JValue.arr [JValue.num 5])]
        else JValue.undefined) none
      (some { ok := true, status := 200, text := "db", location := none,
              setCookies := [] }) =
      Outcome.resolve (JValue.arr []) ∧
    AccountManager.getDeploymentKeys
      (fun t =>
        if t = "kb" then JValue.obj [("accessKeys", JValue.arr [JValue.str "k"])]
        else if t = "ab" then
          JValue.obj [("apps", JValue.arr [JValue.str "a1", JValue.str "a2"])]
        else if t = "db" then JValue.obj [("deployments", JValue.arr [])]
        else if t = "dkb" then
          JValue.obj [("deploymentKeys", JValue.arr [JValue.num 5])]
        else JValue.undefined) none
      (some { ok := true, status := 200, text := "dkb", location := none,
              setCookies := [] }) =
      Outcome.resolve (JValue.arr [JValue.num 5]) := by
  exact listOps_resolve_body_sequences
    (fun t =>
      if t = "kb" then JValue.obj [("accessKeys", JValue.arr [JValue.str "k"])]
      else if t = "ab" then
        JValue.obj [("apps", JValue.arr [JValue.str "a1", JValue.str "a2"])]
      else if t = "db" then JValue.obj [("deployments", JValue.arr [])]
      else if t = "dkb" then
        JValue.obj [("deploymentKeys", JValue.arr [JValue.num 5])]
      else JValue.undefined)
    { ok := true, status := 200, text := "kb", location := none, setCookies := [] }
    { ok := true, status := 200, text := "ab", location := none, setCookies := [] }
    { ok := true, status := 200, text := "db", location := none, setCookies := [] }
    { ok := true, status := 200, text := "dkb", location := none, setCookies := [] }
    [("accessKeys", JValue.arr [JValue.str "k"])]
    [("apps", JValue.arr [JValue.str "a1", JValue.str "a2"])]
    [("deployments", JValue.arr [])]
    [("deploymentKeys", JValue.arr [JValue.num 5])]
    [JValue.str "k"] [JValue.str "a1", JValue.str "a2"] [] [JValue.num 5]
    rfl rfl rfl rfl rfl rfl rfl rfl rfl rfl rfl rfl

/-- C7: for every destructive command whose target names resolve, declining
the interactive confirmation invokes no remove/delete SDK method and logs
exactly "Remove cancelled.". -/
theorem removeCommand_cancelled_is_noop (data : SdkData) (cmd : RemoveCommand)
    (h : resolvesTarget data cmd = true) :
    executeRemove data false cmd = ([], ["Remove cancelled."]) := by
  cases cmd with
  | accessKeyRemove name =>
    cases hf : findIdByName data.accessKeys name with
    | none => simp [resolvesTarget, hf] at h
    | some id => simp [executeRemove, hf]
  | appRemove name =>
    cases hf : findIdByName data.apps name with
    | none => simp [resolvesTarget, hf] at h
    | some id => simp [executeRemove, hf]
  | deploymentRemove appName deploymentName =>
    cases hf : findIdByName data.apps appName with
    | none => simp [resolvesTarget, hf] at h
    | some appId =>
      cases hg : findIdByName (data.deployments appId) deploymentName with
      | none => simp [resolvesTarget, hf, hg] at h
      | some deploymentId => simp [executeRemove, hf, hg]

/-- Witness for C7: on the stub data of the test suite, a declined
deploymentRemove of "Staging" in app "a" makes no SDK remove call and logs
the cancellation message. -/
theorem removeCommand_cancelled_is_noop_witness :
    executeRemove
      { accessKeys := [("7", "8")], apps := [("1", "a"), ("2", "b")],
        deployments := fun appId =>
          if appId = "1" then [("3", "Production"), ("4", "Staging")] else [] }
      false (RemoveCommand.deploymentRemove "a" "Staging") =
      ([], ["Remove cancelled."]) :=
  removeCommand_cancelled_is_noop
    { accessKeys := [("7", "8")], apps := [("1", "a"), ("2", "b")],
      deployments := fun appId =>
        if appId = "1" then [("3", "Production"), ("4", "Staging")] else [] }
    (RemoveCommand.deploymentRemove "a" "Staging") rfl

/-- C8: isAuthenticated resolves false rather than rejecting whenever the
observed status is 401 — whether the 401 arrives as a transport error (with
or without an accompanying response) or as a plain response — and on every
path that resolves it resolves true exactly when the observed status is 200. -/
theorem isAuthenticated_resolves_false_on_401 (save : Bool)
    (agent : Option AuthedAgent) (e : TransportError) (r r401 : Response)
    (he : e.status = some 401) (h401 : r401.status = 401) :
    (AccountManager.isAuthenticatedEnd save agent (some e) none).1 =
      Outcome.resolve (JValue.bool false) ∧
    (AccountManager.isAuthenticatedEnd save agent (some e) (some r401)).1 =
      Outcome.resolve (JValue.bool false) ∧
    (AccountManager.isAuthenticatedEnd save agent none (some r401)).1 =
      Outcome.resolve (JValue.bool false) ∧
    (AccountManager.isAuthenticatedEnd save agent none (some r)).1 =
      Outcome.resolve (JValue.bool (r.status == 200)) ∧
    (AccountManager.isAuthenticatedEnd save agent (some e) (some r)).1 =
      Outcome.resolve (JValue.bool (r.status == 200)) := by
  have hfst : ∀ (s : Bool) (a : Option AuthedAgent) (er : Option TransportError)
      (rr : Response),
      (AccountManager.isAuthenticatedProceed s a er (some rr)).1 =
        Outcome.resolve (JValue.bool (rr.status == 200)) := by
    intro s a er rr
    show (AccountManager.isAuthenticatedProceed s a er (some rr)).1 =
      Outcome.resolve (JValue.bool (some rr.status == some 200))
    simp [AccountManager.isAuthenticatedProceed, AccountManager.observedStatus]
    split <;> rfl
  have hnone : (AccountManager.isAuthenticatedProceed save agent (some e) none).1 =
      Outcome.resolve (JValue.bool false) := by
    have : ((some 401 : Option Nat) == some 200) = false := by decide
    simp [AccountManager.isAuthenticatedProceed, AccountManager.observedStatus, he, this]
  refine ⟨?_, ?_, ?_, ?_, ?_⟩ <;>
    simp [AccountManager.isAuthenticatedEnd, he, hfst, hnone, h401]

/-- Witness for C8: with a 401 transport error, a 401 response and a 200
response, isAuthenticated resolves false, false, false, true, true. -/
theorem isAuthenticated_resolves_false_on_401_witness :
    (AccountManager.isAuthenticatedEnd false none
      (some { status := some 401, message := "Unauthorized" }) none).1 =
      Outcome.resolve (JValue.bool false) ∧
    (AccountManager.isAuthenticatedEnd false none
      (some { status := some 401, message := "Unauthorized" })
      (some { ok := false, status := 401, text := "denied", location := none,
              setCookies := [] })).1 = Outcome.resolve (JValue.bool false) ∧
    (AccountManager.isAuthenticatedEnd false none none
      (some { ok := false, status := 401, text := "denied", location := none,
              setCookies := [] })).1 = Outcome.resolve (JValue.bool false) ∧
    (AccountManager.isAuthenticatedEnd false none none
      (some { ok := true, status := 200, text := "Authenticated", location := none,
              setCookies := [] })).1 = Outcome.resolve (JValue.bool true) ∧
    (AccountManager.isAuthenticatedEnd false none
      (some { status := some 401, message := "Unauthorized" })
      (some { ok := true, status := 200, text := "Authenticated", location := none,
              setCookies := [] })).1 = Outcome.resolve (JValue.bool true) := by
  simpa using isAuthenticated_resolves_false_on_401 false none
    { status := some 401, message := "Unauthorized" }
    { ok := true, status := 200, text := "Authenticated", location := none,
      setCookies := [] }
    { ok := false, status := 401, text := "denied", location := none,
      setCookies := [] } rfl rfl

/-- C9: in the session-saving environment, loginWithAccessToken's callback on
a completed round-trip with no transport error overwrites the stored
authenticated agent with a fresh agent carrying the response's cookies, even
when the response status is non-success and the operation rejects. -/
theorem loginWithAccessToken_overwrites_agent_on_rejected_login
    (tj : String → JValue) (agent : Option AuthedAgent) (r : Response)
    (hok : r.ok = false) :
    (AccountManager.loginWithAccessTokenEnd tj true agent none (some r)).2 =
      some (agentFromResponse r) ∧
    (AccountManager.loginWithAccessTokenEnd tj true agent none (some r)).1.isReject
      = true := by
  constructor
  · simp [AccountManager.loginWithAccessTokenEnd, hok]
  · simp [AccountManager.loginWithAccessTokenEnd, hok, failureOutcome_isReject]

/-- Witness for C9: a rejected login on a 401 response still replaces the
stored agent with one holding the response's cookies. -/
theorem loginWithAccessToken_overwrites_agent_witness :
    (AccountManager.loginWithAccessTokenEnd (fun _ => JValue.undefined) true
      (some { cookies := ["old=1"] }) none
      (some { ok := false, status := 401, text := "denied", location := none,
              setCookies := ["session=2"] })).2 =
      some { cookies := ["session=2"] } ∧
    (AccountManager.loginWithAccessTokenEnd (fun _ => JValue.undefined) true
      (some { cookies := ["old=1"] }) none
      (some { ok := false, status := 401, text := "denied", location := none,
              setCookies := ["session=2"] })).1.isReject = true := by
  simpa [agentFromResponse] using
    loginWithAccessToken_overwrites_agent_on_rejected_login (fun _ => JValue.undefined)
      (some { cookies := ["old=1"] })
      { ok := false, status := 401, text := "denied", location := none,
        setCookies := ["session=2"] } rfl

/-- C10: logout clears the stored authenticated agent on every completed
round-trip except a transport error whose status is not 401, including when
the response status is non-success and logout rejects. -/
theorem logout_clears_agent_even_on_rejection (tj : String → JValue)
    (agent : Option AuthedAgent) (err : Option TransportError)
    (res : Option Response) (r : Response)
    (herr : (match err with
             | some e => e.status = some 401
             | none => True))
    (hok : r.ok = false) :
    (AccountManager.logoutEnd tj agent err res).2 = none ∧
    (AccountManager.logoutEnd tj agent none (some r)).1.isReject = true := by
  constructor
  · cases err with
    | none => simp [AccountManager.logoutEnd, logoutProceed_snd]
    | some e =>
      have h401 : e.status = some 401 := herr
      simp [AccountManager.logoutEnd, h401, logoutProceed_snd]
  · simp [AccountManager.logoutEnd, AccountManager.logoutProceed, hok,
      failureOutcome_isReject]

/-- Witness for C10: a logout completing with a 401 transport error and a
non-success response clears the agent and rejects. -/
theorem logout_clears_agent_witness :
    (AccountManager.logoutEnd (fun _ => JValue.undefined)
      (some { cookies := ["session=2"] })
      (some { status := some 401, message := "Unauthorized" })
      (some { ok := false, status := 401, text := "denied", location := none,
              setCookies := [] })).2 = none ∧
    (AccountManager.logoutEnd (fun _ => JValue.undefined)
      (some { cookies := ["session=2"] }) none
      (some { ok := false, status := 401, text := "denied", location := none,
              setCookies := [] })).1.isReject = true :=
  logout_clears_agent_even_on_rejection (fun _ => JValue.undefined)
    (some { cookies := ["session=2"] })
    (some { status := some 401, message := "Unauthorized" })
    (some { ok := false, status := 401, text := "denied", location := none,
            setCookies := [] })
    { ok := false, status := 401, text := "denied", location := none,
      setCookies := [] } rfl rfl

/-- C1: the claim fails on the code: addDeploymentKey's callback, on a
completed round-trip with no transport error whose response status flag is
non-success, returns without resolving or rejecting — the missing else
branch of the outer `if (res.ok)` leaves the deferred unsettled forever. -/
theorem addDeploymentKey_nonSuccess_never_settles :
    AccountManager.addDeploymentKey (fun _ => JValue.undefined) none
      (some { ok := false, status := 500, text := "Internal Server Error",
              location := none, setCookies := [] }) = Outcome.hang := rfl

/-- Counterexample to C2: on a successful response with the Location header
absent, addDeploymentKey does not resolve null as the claim states; it
resolves the parsed body's deploymentKey field. -/
theorem addDeploymentKey_ignores_location_header :
    AccountManager.addDeploymentKey
      (fun _ => JValue.obj [("deploymentKey", JValue.str "K")]) none
      (some { ok := true, status := 201, text := "keyBody", location := none,
              setCookies := [] }) = Outcome.resolve (JValue.str "K") ∧
    JValue.str "K" ≠ JValue.null :=
  ⟨rfl, fun h => JValue.noConfusion h⟩

/-- On a success response, `createOpOnResponse` resolves the record with its
id set to the Location header's trailing path segment, and resolves null
when the header is absent or contains no '/'. -/
theorem createOp_location_cases (mk : String → JValue) (tj : String → JValue)
    (r rAbsent rNoSlash : Response) (loc loc2 : String) (i : Nat)
    (hok : r.ok = true) (hloc : r.location = some loc)
    (hi : lastIndexOfChar loc.data '/' = some i)
    (hok2 : rAbsent.ok = true) (habs : rAbsent.location = none)
    (hok3 : rNoSlash.ok = true) (hns : rNoSlash.location = some loc2)
    (hnos : lastIndexOfChar loc2.data '/' = none) :
    endCallback (createOpOnResponse mk tj) none (some r) =
      Outcome.resolve (mk (substrFrom loc (i + 1))) ∧
    endCallback (createOpOnResponse mk tj) none (some rAbsent) =
      Outcome.resolve JValue.null ∧
    endCallback (createOpOnResponse mk tj) none (some rNoSlash) =
      Outcome.resolve JValue.null := by
  refine ⟨?_, ?_, ?_⟩
  · have hne : loc ≠ "" := by
      intro hEq
      subst hEq
      exact Option.noConfusion hi
    simp [endCallback, createOpOnResponse, hok, hloc, hi, hne]
  · simp [endCallback, createOpOnResponse, hok2, habs]
  · by_cases hEq : loc2 = ""
    · subst hEq
      simp [endCallback, createOpOnResponse, hok3, hns]
    · simp [endCallback, createOpOnResponse, hok3, hns, hEq, hnos]

/-- C2 (amended): addAccessKey, addApp and addDeployment extract the trailing
path segment of the Location header as the new resource's id and resolve the
resource with that id, resolving null when the header is absent or contains
no '/'; addDeploymentKey instead parses the response body and resolves its
deploymentKey field, rejecting with a parse error when the body is
unparseable. -/
theorem createOps_extract_location_id (tj : String → JValue)
    (uuidName appName depName : String) (descr : JValue)
    (r rAbsent rNoSlash : Response) (loc loc2 : String) (i : Nat)
    (hok : r.ok = true) (hloc : r.location = some loc)
    (hi : lastIndexOfChar loc.data '/' = some i)
    (hok2 : rAbsent.ok = true) (habs : rAbsent.location = none)
    (hok3 : rNoSlash.ok = true) (hns : rNoSlash.location = some loc2)
    (hnos : lastIndexOfChar loc2.data '/' = none) :
    AccountManager.addAccessKey uuidName descr tj none (some r) =
      Outcome.resolve (JValue.obj [("id", JValue.str (substrFrom loc (i + 1))),
        ("name", JValue.str uuidName), ("description", descr)]) ∧
    AccountManager.addApp appName descr tj none (some r) =
      Outcome.resolve (JValue.obj [("name", JValue.str appName),
        ("description", descr), ("id", JValue.str (substrFrom loc (i + 1)))]) ∧
    AccountManager.addDeployment depName descr tj none (some r) =
      Outcome.resolve (JValue.obj [("name", JValue.str depName),
        ("description", descr), ("id", JValue.str (substrFrom loc (i + 1)))]) ∧
    AccountManager.addAccessKey uuidName descr tj none (some rAbsent) =
      Outcome.resolve JValue.null ∧
    AccountManager.addApp appName descr tj none (some rAbsent) =
      Outcome.resolve JValue.null ∧
    AccountManager.addDeployment depName descr tj none (some rAbsent) =
      Outcome.resolve JValue.null ∧
    AccountManager.addAccessKey uuidName descr tj none (some rNoSlash) =
      Outcome.resolve JValue.null ∧
    AccountManager.addApp appName descr tj none (some rNoSlash) =
      Outcome.resolve JValue.null ∧
    AccountManager.addDeployment depName descr tj none (some rNoSlash) =
      Outcome.resolve JValue.null ∧
    (truthy (tj r.text) = true →
      AccountManager.addDeploymentKey tj none (some r) =
        Outcome.resolve (getField (tj r.text) "deploymentKey")) ∧
    (tj rAbsent.text = JValue.undefined →
      AccountManager.addDeploymentKey tj none (some rAbsent) =
        Outcome.reject (errorResponse
          ("Could not parse response: " ++ rAbsent.text) rAbsent.status)) := by
  have hKey := createOp_location_cases
    (fun id => JValue.obj [("id", JValue.str id), ("name", JValue.str uuidName),
      ("description", descr)])
    tj r rAbsent rNoSlash loc loc2 i hok hloc hi hok2 habs hok3 hns hnos
  have hApp := createOp_location_cases
    (fun id => JValue.obj [("name", JValue.str appName), ("description", descr),
      ("id", JValue.str id)])
    tj r rAbsent rNoSlash loc loc2 i hok hloc hi hok2 habs hok3 hns hnos
  have hDep := createOp_location_cases
    (fun id => JValue.obj [("name", JValue.str depName), ("description", descr),
      ("id", JValue.str id)])
    tj r rAbsent rNoSlash loc loc2 i hok hloc hi hok2 habs hok3 hns hnos
  refine ⟨hKey.1, hApp.1, hDep.1, hKey.2.1, hApp.2.1, hDep.2.1,
    hKey.2.2, hApp.2.2, hDep.2.2, ?_, ?_⟩
  · intro htru
    simp [AccountManager.addDeploymentKey, endCallback,
      AccountManager.addDeploymentKeyOnResponse, hok, htru]
  · intro hbody
    simp [AccountManager.addDeploymentKey, endCallback,
      AccountManager.addDeploymentKeyOnResponse, hok2, hbody, truthy]

/-- Witness for C2 (amended): concrete success responses with Location
"/a/b/newId", no Location, and Location "abc". -/
theorem createOps_extract_location_id_witness :
    AccountManager.addAccessKey "u1" JValue.undefined
      (fun t => if t = "keyBody" then JValue.obj [("deploymentKey", JValue.str "K")]
                else JValue.undefined) none
      (some { ok := true, status := 201, text := "keyBody",
              location := some "/a/b/newId", setCookies := [] }) =
      Outcome.resolve (JValue.obj [("id", JValue.str "newId"),
        ("name", JValue.str "u1"), ("description", JValue.undefined)]) ∧
    AccountManager.addApp "myApp" JValue.undefined
      (fun t => if t = "keyBody" then JValue.obj [("deploymentKey", JValue.str "K")]
                else JValue.undefined) none
      (some { ok := true, status := 201, text := "keyBody",
              location := some "/a/b/newId", setCookies := [] }) =
      Outcome.resolve (JValue.obj [("name", JValue.str "myApp"),
        ("description", JValue.undefined), ("id", JValue.str "newId")]) ∧
    AccountManager.addDeployment "Staging" JValue.undefined
      (fun t => if t = "keyBody" then JValue.obj [("deploymentKey", JValue.str "K")]
                else JValue.undefined) none
      (some { ok := true, status := 201, text := "keyBody",
              location := some "/a/b/newId", setCookies := [] }) =
      Outcome.resolve (JValue.obj [("name", JValue.str "Staging"),
        ("description", JValue.undefined), ("id", JValue.str "newId")]) ∧
    AccountManager.addAccessKey "u1" JValue.undefined
      (fun t => if t = "keyBody" then JValue.obj [("deploymentKey", JValue.str "K")]
                else JValue.undefined) none
      (some { ok := true, status := 201, text := "junk", location := none,
              setCookies := [] }) = Outcome.resolve JValue.null ∧
    AccountManager.addApp "myApp" JValue.undefined
      (fun t => if t = "keyBody" then JValue.obj [("deploymentKey", JValue.str "K")]
                else JValue.undefined) none
      (some { ok := true, status := 201, text := "junk", location := none,
              setCookies := [] }) = Outcome.resolve JValue.null ∧
    AccountManager.addDeployment "Staging" JValue.undefined
      (fun t => if t = "keyBody" then JValue.obj [("deploymentKey", JValue.str "K")]
                else JValue.undefined) none
      (some { ok := true, status := 201, text := "junk", location := none,
              setCookies := [] }) = Outcome.resolve JValue.null ∧
    AccountManager.addAccessKey "u1" JValue.undefined
      (fun t => if t = "keyBody" then JValue.obj [("deploymentKey", JValue.str "K")]
                else JValue.undefined) none
      (some { ok := true, status := 201, text := "junk", location := some "abc",
              setCookies := [] }) = Outcome.resolve JValue.null ∧
    AccountManager.addApp "myApp" JValue.undefined
      (fun t => if t = "keyBody" then JValue.obj [("deploymentKey", JValue.str "K")]
                else JValue.undefined) none
      (some { ok := true, status := 201, text := "junk", location := some "abc",
              setCookies := [] }) = Outcome.resolve JValue.null ∧
    AccountManager.addDeployment "Staging" JValue.undefined
      (fun t => if t = "keyBody" then JValue.obj [("deploymentKey", JValue.str "K")]
                else JValue.undefined) none
      (some { ok := true, status := 201, text := "junk", location := some "abc",
              setCookies := [] }) = Outcome.resolve JValue.null ∧
    AccountManager.addDeploymentKey
      (fun t => if t = "keyBody" then JValue.obj [("deploymentKey", JValue.str "K")]
                else JValue.undefined) none
      (some { ok := true, status := 201, text := "keyBody",
              location := some "/a/b/newId", setCookies := [] }) =
      Outcome.resolve (JValue.str "K") ∧
    AccountManager.addDeploymentKey
      (fun t => if t = "keyBody" then JValue.obj [("deploymentKey", JValue.str "K")]
                else JValue.undefined) none
      (some { ok := true, status := 201, text := "junk", location := none,
              setCookies := [] }) =
      Outcome.reject (errorResponse "Could not parse response: junk" 201) := by
  have h := createOps_extract_location_id
    (fun t => if t = "keyBody" then JValue.obj [("deploymentKey", JValue.str "K")]
              else JValue.undefined)
    "u1" "myApp" "Staging" JValue.undefined
    { ok := true, status := 201, text := "keyBody",
      location := some "/a/b/newId", setCookies := [] }
    { ok := true, status := 201, text := "junk", location := none,
      setCookies := [] }
    { ok := true, status := 201, text := "junk", location := some "abc",
      setCookies := [] }
    "/a/b/newId" "abc" 4 rfl rfl rfl rfl rfl rfl rfl rfl
  exact ⟨h.1, h.2.1, h.2.2.1, h.2.2.2.1, h.2.2.2.2.1, h.2.2.2.2.2.1,
    h.2.2.2.2.2.2.1, h.2.2.2.2.2.2.2.1, h.2.2.2.2.2.2.2.2.1,
    h.2.2.2.2.2.2.2.2.2.1 rfl, by
      simpa using h.2.2.2.2.2.2.2.2.2.2 rfl⟩

/-- Counterexample to C3: isAuthenticated, on a received 404 response (no
transport error), resolves false instead of rejecting, although the claim
requires every operation to reject on a non-success status. -/
theorem isAuthenticated_nonSuccess_resolves_instead_of_rejecting :
    (AccountManager.isAuthenticatedEnd false none none
      (some { ok := false, status := 404, text := "Not Found", location := none,
              setCookies := [] })).1 = Outcome.resolve (JValue.bool false) ∧
    (AccountManager.isAuthenticatedEnd false none none
      (some { ok := false, status := 404, text := "Not Found", location := none,
              setCookies := [] })).1.isReject = false :=
  ⟨rfl, rfl⟩

/-- C3 (amended): every operation except isAuthenticated (which resolves a
boolean) and addDeploymentKey (which settles nothing, see C1), on a received
response with non-success status, rejects with the parsed body exactly when
the body text parses to a truthy JSON value, and otherwise rejects with
`{message: raw text, statusCode: status}`. -/
theorem nonSuccess_rejects_error_body (tj : String → JValue) (r : Response)
    (save : Bool) (agent : Option AuthedAgent)
    (uuidName appName depName : String) (descr : JValue)
    (expected : Outcome) (hok : r.ok = false)
    (hexp : expected = if truthy (tj r.text) then Outcome.reject (tj r.text)
            else Outcome.reject (errorResponse r.text r.status)) :
    (AccountManager.loginWithAccessTokenEnd tj save agent none (some r)).1 = expected ∧
    (AccountManager.logoutEnd tj agent none (some r)).1 = expected ∧
    AccountManager.addAccessKey uuidName descr tj none (some r) = expected ∧
    AccountManager.getAccessKey tj none (some r) = expected ∧
    AccountManager.getAccessKeys tj none (some r) = expected ∧
    AccountManager.removeAccessKey tj none (some r) = expected ∧
    AccountManager.getAccountInfo tj none (some r) = expected ∧
    AccountManager.updateAccountInfo tj none (some r) = expected ∧
    AccountManager.getApps tj none (some r) = expected ∧
    AccountManager.getApp tj none (some r) = expected ∧
    AccountManager.addApp appName descr tj none (some r) = expected ∧
    AccountManager.removeApp tj none (some r) = expected ∧
    AccountManager.updateApp tj none (some r) = expected ∧
    AccountManager.addDeployment depName descr tj none (some r) = expected ∧
    AccountManager.getDeployments tj none (some r) = expected ∧
    AccountManager.getDeployment tj none (some r) = expected ∧
    AccountManager.updateDeployment tj none (some r) = expected ∧
    AccountManager.removeDeployment tj none (some r) = expected ∧
    AccountManager.getDeploymentKeys tj none (some r) = expected ∧
    AccountManager.getDeploymentKey tj none (some r) = expected ∧
    AccountManager.updateDeploymentKey tj none (some r) = expected ∧
    AccountManager.deleteDeploymentKey tj none (some r) = expected ∧
    AccountManager.addPackage tj none (some r) = expected ∧
    AccountManager.getPackage tj none (some r) = expected := by
  subst hexp
  refine ⟨?_, ?_, ?_, ?_, ?_, ?_, ?_, ?_, ?_, ?_, ?_, ?_, ?_, ?_, ?_, ?_, ?_,
    ?_, ?_, ?_, ?_, ?_, ?_, ?_⟩ <;>
    simp [AccountManager.loginWithAccessTokenEnd, AccountManager.logoutEnd,
      AccountManager.logoutProceed, AccountManager.addAccessKey,
      AccountManager.getAccessKey, AccountManager.getAccessKeys,
      AccountManager.removeAccessKey, AccountManager.getAccountInfo,
      AccountManager.updateAccountInfo, AccountManager.getApps,
      AccountManager.getApp, AccountManager.addApp, AccountManager.removeApp,
      AccountManager.updateApp, AccountManager.addDeployment,
      AccountManager.getDeployments, AccountManager.getDeployment,
      AccountManager.updateDeployment, AccountManager.removeDeployment,
      AccountManager.getDeploymentKeys, AccountManager.getDeploymentKey,
      AccountManager.updateDeploymentKey, AccountManager.deleteDeploymentKey,
      AccountManager.addPackage, AccountManager.getPackage,
      endCallback, voidOpOnResponse, getOpOnResponse, createOpOnResponse,
      failureOutcome, hok]

/-- Witness for C3 (amended): on a 500 response whose body parses to the
object `{code: 7}`, every covered operation rejects with exactly that
object. -/
theorem nonSuccess_rejects_error_body_witness :
    (AccountManager.loginWithAccessTokenEnd
      (fun _ => JValue.obj [("code", JValue.num 7)]) true none none
      (some { ok := false, status := 500, text := "E", location := none,
              setCookies := [] })).1 =
      Outcome.reject (JValue.obj [("code", JValue.num 7)]) ∧
    (AccountManager.logoutEnd (fun _ => JValue.obj [("code", JValue.num 7)]) none
      none (some { ok := false, status := 500, text := "E", location := none,
                   setCookies := [] })).1 =
      Outcome.reject (JValue.obj [("code", JValue.num 7)]) ∧
    AccountManager.addAccessKey "u1" JValue.undefined
      (fun _ => JValue.obj [("code", JValue.num 7)]) none
      (some { ok := false, status := 500, text := "E", location := none,
              setCookies := [] }) =
      Outcome.reject (JValue.obj [("code", JValue.num 7)]) ∧
    AccountManager.getAccessKey (fun _ => JValue.obj [("code", JValue.num 7)]) none
      (some { ok := false, status := 500, text := "E", location := none,
              setCookies := [] }) =
      Outcome.reject (JValue.obj [("code", JValue.num 7)]) ∧
    AccountManager.getAccessKeys (fun _ => JValue.obj [("code", JValue.num 7)]) none
      (some { ok := false, status := 500, text := "E", location := none,
              setCookies := [] }) =
      Outcome.reject (JValue.obj [("code", JValue.num 7)]) ∧
    AccountManager.removeAccessKey (fun _ => JValue.obj [("code", JValue.num 7)]) none
      (some { ok := false, status := 500, text := "E", location := none,
              setCookies := [] }) =
      Outcome.reject (JValue.obj [("code", JValue.num 7)]) ∧
    AccountManager.getAccountInfo (fun _ => JValue.obj [("code", JValue.num 7)]) none
      (some { ok := false, status := 500, text := "E", location := none,
              setCookies := [] }) =
      Outcome.reject (JValue.obj [("code", JValue.num 7)]) ∧
    AccountManager.updateAccountInfo (fun _ => JValue.obj [("code", JValue.num 7)]) none
      (some { ok := false, status := 500, text := "E", location := none,
              setCookies := [] }) =
      Outcome.reject (JValue.obj [("code", JValue.num 7)]) ∧
    AccountManager.getApps (fun _ => JValue.obj [("code", JValue.num 7)]) none
      (some { ok := false, status := 500, text := "E", location := none,
              setCookies := [] }) =
      Outcome.reject (JValue.obj [("code", JValue.num 7)]) ∧
    AccountManager.getApp (fun _ => JValue.obj [("code", JValue.num 7)]) none
      (some { ok := false, status := 500, text := "E", location := none,
              setCookies := [] }) =
      Outcome.reject (JValue.obj [("code", JValue.num 7)]) ∧
    AccountManager.addApp "myApp" JValue.undefined
      (fun _ => JValue.obj [("code", JValue.num 7)]) none
      (some { ok := false, status := 500, text := "E", location := none,
              setCookies := [] }) =
      Outcome.reject (JValue.obj [("code", JValue.num 7)]) ∧
    AccountManager.removeApp (fun _ => JValue.obj [("code", JValue.num 7)]) none
      (some { ok := false, status := 500, text := "E", location := none,
              setCookies := [] }) =
      Outcome.reject (JValue.obj [("code", JValue.num 7)]) ∧
    AccountManager.updateApp (fun _ => JValue.obj [("code", JValue.num 7)]) none
      (some { ok := false, status := 500, text := "E", location := none,
              setCookies := [] }) =
      Outcome.reject (JValue.obj [("code", JValue.num 7)]) ∧
    AccountManager.addDeployment "Staging" JValue.undefined
      (fun _ => JValue.obj [("code", JValue.num 7)]) none
      (some { ok := false, status := 500, text := "E", location := none,
              setCookies := [] }) =
      Outcome.reject (JValue.obj [("code", JValue.num 7)]) ∧
    AccountManager.getDeployments (fun _ => JValue.obj [("code", JValue.num 7)]) none
      (some { ok := false, status := 500, text := "E", location := none,
              setCookies := [] }) =
      Outcome.reject (JValue.obj [("code", JValue.num 7)]) ∧
    AccountManager.getDeployment (fun _ => JValue.obj [("code", JValue.num 7)]) none
      (some { ok := false, status := 500, text := "E", location := none,
              setCookies := [] }) =
      Outcome.reject (JValue.obj [("code", JValue.num 7)]) ∧
    AccountManager.updateDeployment (fun _ => JValue.obj [("code", JValue.num 7)]) none
      (some { ok := false, status := 500, text := "E", location := none,
              setCookies := [] }) =
      Outcome.reject (JValue.obj [("code", JValue.num 7)]) ∧
    AccountManager.removeDeployment (fun _ => JValue.obj [("code", JValue.num 7)]) none
      (some { ok := false, status := 500, text := "E", location := none,
              setCookies := [] }) =
      Outcome.reject (JValue.obj [("code", JValue.num 7)]) ∧
    AccountManager.getDeploymentKeys (fun _ => JValue.obj [("code", JValue.num 7)]) none
      (some { ok := false, status := 500, text := "E", location := none,
              setCookies := [] }) =
      Outcome.reject (JValue.obj [("code", JValue.num 7)]) ∧
    AccountManager.getDeploymentKey (fun _ => JValue.obj [("code", JValue.num 7)]) none
      (some { ok := false, status := 500, text := "E", location := none,
              setCookies := [] }) =
      Outcome.reject (JValue.obj [("code", JValue.num 7)]) ∧
    AccountManager.updateDeploymentKey (fun _ => JValue.obj [("code", JValue.num 7)]) none
      (some { ok := false, status := 500, text := "E", location := none,
              setCookies := [] }) =
      Outcome.reject (JValue.obj [("code", JValue.num 7)]) ∧
    AccountManager.deleteDeploymentKey (fun _ => JValue.obj [("code", JValue.num 7)]) none
      (some { ok := false, status := 500, text := "E", location := none,
              setCookies := [] }) =
      Outcome.reject (JValue.obj [("code", JValue.num 7)]) ∧
    AccountManager.addPackage (fun _ => JValue.obj [("code", JValue.num 7)]) none
      (some { ok := false, status := 500, text := "E", location := none,
              setCookies := [] }) =
      Outcome.reject (JValue.obj [("code", JValue.num 7)]) ∧
    AccountManager.getPackage (fun _ => JValue.obj [("code", JValue.num 7)]) none
      (some { ok := false, status := 500, text := "E", location := none,
              setCookies := [] }) =
      Outcome.reject (JValue.obj [("code", JValue.num 7)]) := by
  simpa using nonSuccess_rejects_error_body
    (fun _ => JValue.obj [("code", JValue.num 7)])
    { ok := false, status := 500, text := "E", location := none, setCookies := [] }
    true none "u1" "myApp" "Staging" JValue.undefined
    (Outcome.reject (JValue.obj [("code", JValue.num 7)])) rfl rfl

end CodePush
